import Mathlib

/-!
Shallow embedding of the `@vercel/slack-bolt` receiver (src/index.ts and
src/errors.ts): the body normalizer, signature-verification header checks,
the acknowledgment gate, the response synthesizer, the retry-metadata
event construction, and the `createHandler` initialization memoizer.

External platform primitives (the JavaScript `JSON.parse` and the
`verifySlackRequest` helper imported from `@slack/bolt`) are modelled as
explicit function parameters: the receiver only composes them, so every
theorem quantifies over their behavior.  Fallible code returns `Except`.
-/

namespace SlackBolt

/-- JSON values (JavaScript objects reaching the receiver as parsed
payloads or acknowledgment bodies).  Numbers are modelled as integers;
objects as ordered key/value lists, matching JS property order. -/
inductive Json where
  | null : Json
  | bool (b : Bool) : Json
  | num (n : Int) : Json
  | str (s : String) : Json
  | arr (xs : List Json) : Json
  | obj (kvs : List (String × Json)) : Json

/-- JSON string escaping used by `JSON.stringify` (quote and backslash;
control characters do not occur in the inputs considered here). -/
def escapeJsonChar (c : Char) : String :=
  if c = '"' then "\\\"" else if c = '\\' then "\\\\" else String.singleton c

/-- Serialize a JSON string literal. -/
def stringifyStr (s : String) : String :=
  "\"" ++ String.join (s.data.map escapeJsonChar) ++ "\""

mutual

/-- `JSON.stringify` on the `Json` model. -/
def Json.stringify : Json → String
  | .null => "null"
  | .bool true => "true"
  | .bool false => "false"
  | .num n => toString n
  | .str s => stringifyStr s
  | .arr xs => "[" ++ Json.stringifyList xs ++ "]"
  | .obj kvs => "\x7b" ++ Json.stringifyPairs kvs ++ "\x7d"

/-- Comma-separated serialization of array elements. -/
def Json.stringifyList : List Json → String
  | [] => ""
  | [x] => Json.stringify x
  | x :: xs => Json.stringify x ++ "," ++ Json.stringifyList xs

/-- Comma-separated serialization of object properties. -/
def Json.stringifyPairs : List (String × Json) → String
  | [] => ""
  | [(k, v)] => stringifyStr k ++ ":" ++ Json.stringify v
  | (k, v) :: kvs => stringifyStr k ++ ":" ++ Json.stringify v ++ "," ++ Json.stringifyPairs kvs

end

/-- Property lookup on a JSON object (`body.type`, `body.challenge`):
`some v` when the value is an object with that key, `none` otherwise
(JS would yield `undefined`). -/
def jlookup (j : Json) (key : String) : Option Json :=
  match j with
  | .obj kvs => (kvs.find? (fun kv => kv.1 == key)).map (·.2)
  | _ => none

/-- A synthesized HTTP `Response`: status, optional body (a `Response`
constructed with an `undefined` body carries none) and the Content-Type
header when one is set by the receiver. -/
structure Response where
  status : Nat
  body : Option String
  contentType : Option String
deriving DecidableEq, Repr

/-- The errors thrown inside the receiver, by constructor identity as
`getErrorType`/`getStatusCode` in src/errors.ts observe them:
`VercelReceiverError(message, statusCode)`, its `RequestParsingError`
subclass (statusCode 400), and the `@slack/bolt` classes
`ReceiverAuthenticityError` and `ReceiverMultipleAckError`; `genericError`
stands for a plain `Error`. -/
inductive SlackError where
  | vercelReceiverError (message : String) (statusCode : Nat) : SlackError
  | requestParsingError (message : String) : SlackError
  | receiverAuthenticityError (message : String) : SlackError
  | receiverMultipleAckError : SlackError
  | genericError (message : String) : SlackError
deriving DecidableEq, Repr

/-- `getStatusCode` from src/errors.ts: `VercelReceiverError` instances
carry their own status (a `RequestParsingError` was constructed with 400);
otherwise dispatch on the constructor name, defaulting to 500. -/
def getStatusCode : SlackError → Nat
  | .vercelReceiverError _ statusCode => statusCode
  | .requestParsingError _ => 400
  | .receiverAuthenticityError _ => 401
  | .receiverMultipleAckError => 500
  | .genericError _ => 500

/-- `getErrorMessage` from src/errors.ts: the error's `message` property.
The `ReceiverMultipleAckError` message is fixed by `@slack/bolt`. -/
def getErrorMessage : SlackError → String
  | .vercelReceiverError message _ => message
  | .requestParsingError message => message
  | .receiverAuthenticityError message => message
  | .receiverMultipleAckError => "The receiver's `ack` function was called multiple times."
  | .genericError message => message

/-- `getErrorType` from src/errors.ts: the constructor name, with plain
`Error` reported as `UnexpectedError`. -/
def getErrorType : SlackError → String
  | .vercelReceiverError _ _ => "VercelReceiverError"
  | .requestParsingError _ => "RequestParsingError"
  | .receiverAuthenticityError _ => "ReceiverAuthenticityError"
  | .receiverMultipleAckError => "ReceiverMultipleAckError"
  | .genericError _ => "UnexpectedError"

/-- `VercelReceiver.handleError`: a JSON response whose status comes from
`getStatusCode` and whose body serializes `error` and `type`. -/
def handleError (e : SlackError) : Response :=
  { status := getStatusCode e
  , body := some (Json.stringify (Json.obj
      [("error", Json.str (getErrorMessage e)), ("type", Json.str (getErrorType e))]))
  , contentType := some "application/json" }

/-! ## Request headers -/

/-- The inbound request's header map.  Fetch `Headers` normalize names to
lower case and `get` is case-insensitive; keys are stored lower-cased. -/
def Headers := List (String × String)

/-- `Headers.get`: `none` for an absent header (JS `null`).  Fetch
`Headers.get` is case-insensitive; the model stores keys lower-cased and
is queried with the source's lower-case header-name constants, so lookup
is plain equality. -/
def headerGet (headers : Headers) (name : String) : Option String :=
  (List.find? (fun kv => kv.1 == name) headers).map (·.2)

/-- JS truthiness test used on header values: an absent header (`null`)
and the empty string are both falsy. -/
def isFalsyHeader : Option String → Bool
  | none => true
  | some s => s == ""

/-! ## Body normalizer (`parseRequestBody`) -/

/-- Numeric value of one hex digit, as `URLSearchParams` percent-decoding
reads it. -/
def hexVal? (c : Char) : Option Nat :=
  if '0' ≤ c ∧ c ≤ '9' then some (c.toNat - 48)
  else if 'a' ≤ c ∧ c ≤ 'f' then some (c.toNat - 87)
  else if 'A' ≤ c ∧ c ≤ 'F' then some (c.toNat - 55)
  else none

/-- `application/x-www-form-urlencoded` component decoding: `+` becomes a
space, a valid `%XX` escape becomes the encoded character, anything else
passes through (invalid escapes stay literal). -/
def percentDecode : List Char → List Char
  | [] => []
  | '%' :: c1 :: c2 :: rest =>
    match hexVal? c1, hexVal? c2 with
    | some h1, some h2 => Char.ofNat (16 * h1 + h2) :: percentDecode rest
    | _, _ => '%' :: percentDecode (c1 :: c2 :: rest)
  | '+' :: rest => ' ' :: percentDecode rest
  | c :: rest => c :: percentDecode rest

/-- Insert or overwrite one key in the accumulated form map, as the JS
`parsedBody[key] = value` assignment does (later duplicate keys overwrite
in place). -/
def upsert (m : List (String × String)) (k v : String) : List (String × String) :=
  if m.any (fun kv => kv.1 == k) then
    m.map (fun kv => if kv.1 == k then (k, v) else kv)
  else m ++ [(k, v)]

/-- Split the raw body at `&` separators (the accumulator carries the
current segment reversed). -/
def splitAmp : List Char → List Char → List (List Char)
  | [], acc => [acc.reverse]
  | '&' :: rest, acc => acc.reverse :: splitAmp rest []
  | c :: rest, acc => splitAmp rest (c :: acc)

/-- One `&`-separated segment of a form body split at the first `=`:
key and value, each percent-decoded. -/
def formPair (segment : List Char) : String × String :=
  let kcs := segment.takeWhile (fun c => c ≠ '=')
  let vcs := (segment.dropWhile (fun c => c ≠ '=')).tail
  (⟨percentDecode kcs⟩, ⟨percentDecode vcs⟩)

/-- The `new URLSearchParams(rawBody)` entries loop of `parseRequestBody`:
the flat decoded key/value map (empty segments skipped, duplicate keys
last-wins). -/
def urlDecode (rawBody : String) : List (String × String) :=
  ((splitAmp rawBody.data []).filter (fun seg => seg ≠ [])).foldl
    (fun acc seg => let kv := formPair seg; upsert acc kv.1 kv.2) []

/-- Value of a key in the decoded form map. -/
def alistGet? (m : List (String × String)) (k : String) : Option String :=
  (List.find? (fun kv => kv.1 == k) m).map (·.2)

/-- String interpolation of the content-type header into the parsing-error
message (`null` when the header is absent). -/
def contentTypeText : Option String → String
  | some s => s
  | none => "null"

/-- The `RequestParsingError` built by `parseRequestBody`'s catch block:
it names the offending content-type and the underlying message. -/
def parsingError (contentType : Option String) (errMessage : String) : SlackError :=
  .requestParsingError
    ("Failed to parse body as JSON data for content-type: " ++ contentTypeText contentType
      ++ ". Error: " ++ errMessage)

/-- `VercelReceiver.parseRequestBody`.  `jsonParse` is the platform's
`JSON.parse` (`Except.error` carries the thrown `SyntaxError` message).
Exactly as in the source: the form-encoded branch is taken only when the
content-type is the exact string `application/x-www-form-urlencoded`; it
decodes the body, and when a `payload` key exists (its value, a form field,
is always a string) parses that value as JSON, discarding sibling keys,
else returns the flat map; every other content-type — `application/json`,
anything else, or an absent header — JSON-parses the raw body (the
unexpected-content-type warning is only logging); a thrown parse error
becomes a `RequestParsingError` naming the content-type. -/
def parseRequestBody (jsonParse : String → Except String Json)
    (contentType : Option String) (rawBody : String) : Except SlackError Json :=
  if contentType = some "application/x-www-form-urlencoded" then
    let parsedBody := urlDecode rawBody
    match alistGet? parsedBody "payload" with
    | some payload =>
      match jsonParse payload with
      | .ok j => .ok j
      | .error m => .error (parsingError contentType m)
    | none => .ok (Json.obj (parsedBody.map (fun kv => (kv.1, Json.str kv.2))))
  else
    match jsonParse rawBody with
    | .ok j => .ok j
    | .error m => .error (parsingError contentType m)

/-! ## Signature verification header checks (`verifyRequest`) -/

/-- Header-name constants from src/index.ts. -/
def slackTimestampHeader : String := "x-slack-request-timestamp"

/-- Header-name constant for the signature header. -/
def slackSignatureHeader : String := "x-slack-signature"

/-- The `ERROR_MESSAGES.MISSING_REQUIRED_HEADER` template of
src/errors.ts. -/
def missingRequiredHeader (header : String) : String :=
  "Missing required header: " ++ header

/-- `VercelReceiver.verifyRequest`.  `boltVerify` is `@slack/bolt`'s
`verifySlackRequest` (called with the signature header, the timestamp
header — which the source passes through `Number.parseInt` — and the raw
body; `some msg` is a thrown error's message).  The signature header is
checked first, then the timestamp header, each failure a
`ReceiverAuthenticityError` naming the missing header; a throw from the
inner check is wrapped as a `ReceiverAuthenticityError` with its
message. -/
def verifyRequest (boltVerify : String → String → String → Option String)
    (headers : Headers) (body : String) : Except SlackError Unit :=
  let timestamp := headerGet headers slackTimestampHeader
  let signature := headerGet headers slackSignatureHeader
  if isFalsyHeader signature then
    .error (.receiverAuthenticityError (missingRequiredHeader slackSignatureHeader))
  else if isFalsyHeader timestamp then
    .error (.receiverAuthenticityError (missingRequiredHeader slackTimestampHeader))
  else
    match boltVerify (signature.getD "") (timestamp.getD "") body with
    | none => .ok ()
    | some msg => .error (.receiverAuthenticityError msg)

/-! ## Challenge short-circuit and handler pipeline (`toHandler`) -/

/-- The guard `body.type === "url_verification"` of `toHandler`. -/
def isUrlVerification (body : Json) : Bool :=
  match jlookup body "type" with
  | some (Json.str t) => t == "url_verification"
  | _ => false

/-- The object `\x7b challenge: body.challenge \x7d` passed to
`Response.json`: when `body.challenge` is `undefined`, `JSON.stringify`
drops the property. -/
def challengeBody (body : Json) : Json :=
  match jlookup body "challenge" with
  | some c => Json.obj [("challenge", c)]
  | none => Json.obj []

/-- `Response.json(value)`: a 200 response with the serialized value and a
JSON content-type. -/
def responseJson (value : Json) : Response :=
  { status := 200, body := some (Json.stringify value)
  , contentType := some "application/json" }

/-- Outcome of the handler's routing step: either a response produced
without invoking the event-processing engine, or a dispatch of the parsed
body to `handleSlackEvent` (which constructs the event and calls
`app.processEvent`). -/
inductive HandlerAction where
  | respond (r : Response) : HandlerAction
  | dispatch (body : Json) : HandlerAction

/-- The post-parse routing inside `toHandler`: the URL-verification
challenge is answered immediately and the engine is never invoked;
every other payload is handed to `handleSlackEvent`. -/
def routeBody (body : Json) : HandlerAction :=
  if isUrlVerification body then .respond (responseJson (challengeBody body))
  else .dispatch body

/-- The synchronous prefix of the handler returned by `toHandler`:
verify (when enabled), parse, route; any thrown receiver error is caught
and turned into a response by `handleError`. -/
def toHandlerStep (boltVerify : String → String → String → Option String)
    (jsonParse : String → Except String Json) (signatureVerification : Bool)
    (headers : Headers) (rawBody : String) : HandlerAction :=
  let verified : Except SlackError Unit :=
    if signatureVerification then verifyRequest boltVerify headers rawBody else .ok ()
  match verified with
  | .error e => .respond (handleError e)
  | .ok _ =>
    match parseRequestBody jsonParse (headerGet headers "content-type") rawBody with
    | .error e => .respond (handleError e)
    | .ok body => routeBody body

/-! ## Acknowledgment gate (`handleSlackEvent` and `ackFn`) -/

/-- The value an engine passes to `ack`: absent (`undefined`), a string,
or a structured JSON value. -/
inductive AckValue where
  | undef : AckValue
  | str (s : String) : AckValue
  | obj (j : Json) : AckValue

/-- The `new Response(body, ...)` built inside `ackFn`: status 200 and a
`Content-Type: application/json` header in every case; the body is absent
for `ack()`, the string verbatim for a string, and the `JSON.stringify`
serialization otherwise. -/
def mkAckResponse : AckValue → Response
  | .undef => { status := 200, body := none, contentType := some "application/json" }
  | .str s => { status := 200, body := some s, contentType := some "application/json" }
  | .obj j =>
    { status := 200, body := some (Json.stringify j)
    , contentType := some "application/json" }

/-- The per-request acknowledgment gate of `handleSlackEvent`: the
`isAcknowledged` flag shared by `ackFn` and the deadline timer, and the
`responsePromise` (`none` while pending; `some` once settled — a promise
settles at most once). -/
structure Gate where
  isAcknowledged : Bool
  promise : Option (Except SlackError Response)

/-- Gate state when `handleSlackEvent` arms it: not acknowledged, promise
pending. -/
def Gate.initial : Gate := { isAcknowledged := false, promise := none }

/-- Settling a promise: a no-op when it is already settled. -/
def settle (p : Option (Except SlackError Response)) (v : Except SlackError Response) :
    Option (Except SlackError Response) :=
  match p with
  | some x => some x
  | none => some v

/-- The error the deadline timer rejects with:
`VercelReceiverError(REQUEST_TIMEOUT, 408)`. -/
def requestTimeoutError : SlackError := .vercelReceiverError "Request timeout" 408

/-- `ackFn` from `handleSlackEvent`: if the gate has already left the
pending state it throws `ReceiverMultipleAckError` and changes nothing;
otherwise it marks the gate acknowledged (cancelling the timer), builds
the 200 response for the value and resolves the promise with it. -/
def ackFn (g : Gate) (v : AckValue) : Except SlackError Unit × Gate :=
  if g.isAcknowledged then (.error .receiverMultipleAckError, g)
  else
    (.ok (), { isAcknowledged := true, promise := settle g.promise (.ok (mkAckResponse v)) })

/-- The deadline-timer callback of `handleSlackEvent`: if the gate is
still pending when `ackTimeoutMs` elapses, mark it acknowledged and
reject the promise with the 408 timeout error; otherwise do nothing. -/
def fireTimeout (g : Gate) : Gate :=
  if g.isAcknowledged then g
  else { isAcknowledged := true, promise := settle g.promise (.error requestTimeoutError) }

/-- The `await responsePromise` tail of `handleSlackEvent`: a resolved
response is returned as-is, a rejection is converted by `handleError`. -/
def awaitResponse : Except SlackError Response → Response
  | .ok r => r
  | .error e => handleError e

/-! ## Receiver event construction (`createSlackReceiverEvent`) -/

/-- Result of JavaScript's `Number(...)` conversion: a number or `NaN`. -/
inductive JsNum where
  | nan : JsNum
  | int (i : Int) : JsNum
deriving DecidableEq, Repr

/-- Value of a decimal digit string. -/
def natOfDigits (cs : List Char) : Nat :=
  cs.foldl (fun acc c => 10 * acc + (c.toNat - 48)) 0

/-- JavaScript `Number(s)` on the string fragment this receiver can meet:
the empty string converts to 0, an optional-sign decimal-integer string to
its value, and any other string to `NaN` (fractional, exponent, hex and
whitespace forms do not occur in retry headers and are not modelled). -/
def jsToNumber (s : String) : JsNum :=
  if s = "" then .int 0
  else if s.data.head? = some '-' then
    (if s.data.tail ≠ [] ∧ s.data.tail.all Char.isDigit then
      .int (-(natOfDigits s.data.tail : Int)) else .nan)
  else if s.data.head? = some '+' then
    (if s.data.tail ≠ [] ∧ s.data.tail.all Char.isDigit then
      .int (natOfDigits s.data.tail : Int) else .nan)
  else if s.data.all Char.isDigit then .int (natOfDigits s.data : Int)
  else .nan

/-- JS `x || dflt` on a header value: an absent header and the empty
string both fall back to the default. -/
def jsOrDefault (v : Option String) (dflt : String) : String :=
  match v with
  | none => dflt
  | some s => if s = "" then dflt else s

/-- Retry-header name constant. -/
def slackRetryNumHeader : String := "x-slack-retry-num"

/-- Retry-reason header name constant. -/
def slackRetryReasonHeader : String := "x-slack-retry-reason"

/-- The `ReceiverEvent` record handed to `app.processEvent` (the `ack`
capability lives in the `Gate` model above). -/
structure ReceiverEvent where
  body : Json
  retryNum : JsNum
  retryReason : String
  customProperties : List (String × Json)

/-- `createSlackReceiverEvent`: `retryNum` is `Number(header || "0")`,
`retryReason` is `header || ""`, and `customProperties` is the extractor's
result (`\x7b\x7d` when none is configured) — modelled as the already
computed `custom` argument. -/
def createSlackReceiverEvent (headers : Headers) (body : Json)
    (custom : List (String × Json)) : ReceiverEvent :=
  { body := body
  , retryNum := jsToNumber (jsOrDefault (headerGet headers slackRetryNumHeader) "0")
  , retryReason := jsOrDefault (headerGet headers slackRetryReasonHeader) ""
  , customProperties := custom }

/-! ## Initialization memoizer (`createHandler`) -/

/-- The closure state of `createHandler`: the cached `initPromise`
(`none` until the first request, then `some` of the settled outcome of the
`app.init()` call it cached) together with a count of how many times
`app.init()` has been invoked. -/
structure MemoState where
  initPromise : Option (Except String Unit)
  initCalls : Nat

/-- Fresh `createHandler` closure: nothing cached, `app.init` never
invoked. -/
def MemoState.initial : MemoState := { initPromise := none, initCalls := 0 }

/-- The fixed 500 response of `createHandler`'s catch block. -/
def handlerErrorResponse : Response :=
  { status := 500
  , body := some (Json.stringify (Json.obj
      [("error", Json.str "Internal Server Error"), ("type", Json.str "HandlerError")]))
  , contentType := some "application/json" }

/-- One request through the handler returned by `createHandler`:
if no `initPromise` is cached, invoke `app.init()` (its outcome for the
k-th invocation given by `initResults k`) and cache the promise; await it;
a rejection is caught and answered with the fixed 500 response, success
proceeds to the receiver handler (whose response is `inner`).  The source
never clears `initPromise`, so the cached promise — fulfilled or
rejected — stays cached. -/
def createHandlerStep (initResults : Nat → Except String Unit) (inner : Response)
    (s : MemoState) : MemoState × Response :=
  let cached : Except String Unit × Nat :=
    match s.initPromise with
    | none => (initResults s.initCalls, s.initCalls + 1)
    | some p => (p, s.initCalls)
  let s' : MemoState := { initPromise := some cached.1, initCalls := cached.2 }
  match cached.1 with
  | .ok _ => (s', inner)
  | .error _ => (s', handlerErrorResponse)

/-- The `ACK_TIMEOUT_MS` constant of src/index.ts, the default
`ackTimeoutMs`. -/
def ACK_TIMEOUT_MS : Nat := 3001

/-! ## Helper lemmas -/

/-- `Number(s)` on a nonempty all-digits string is the decimal value. -/
theorem jsToNumber_digits (s : String) (hne : s ≠ "")
    (hd : s.data.all Char.isDigit = true) :
    jsToNumber s = JsNum.int (natOfDigits s.data) := by
  have hdata : s.data ≠ [] := by
    intro h
    exact hne (String.ext (h.trans rfl))
  obtain ⟨c, cs, hcons⟩ := List.exists_cons_of_ne_nil hdata
  rw [hcons] at hd
  simp only [List.all_cons, Bool.and_eq_true] at hd
  have hcm : c ≠ '-' := by
    intro h
    rw [h] at hd
    exact absurd hd.1 (by decide)
  have hcp : c ≠ '+' := by
    intro h
    rw [h] at hd
    exact absurd hd.1 (by decide)
  simp only [jsToNumber, if_neg hne, hcons, List.head?_cons, List.tail_cons]
  rw [if_neg (by simp [hcm]), if_neg (by simp [hcp]),
    if_pos (by simp [List.all_cons, hd.1, hd.2])]

/-! ## Theorems -/

/-- C1: once the acknowledgment gate has left the pending state — because a
first `ack` call succeeded or because the deadline timer fired — any `ack`
call fails with `ReceiverMultipleAckError` and leaves the gate, including
its settled response promise, unchanged. -/
theorem ack_after_terminal_rejects :
    (∀ (g : Gate) (v : AckValue), g.isAcknowledged = true →
      ackFn g v = (Except.error SlackError.receiverMultipleAckError, g))
    ∧ (∀ (g : Gate) (v : AckValue), ((ackFn g v).2).isAcknowledged = true)
    ∧ (∀ g : Gate, (fireTimeout g).isAcknowledged = true) := by
  refine ⟨?_, ?_, ?_⟩
  · intro g v h
    simp [ackFn, h]
  · intro g v
    by_cases h : g.isAcknowledged <;> simp [ackFn, h]
  · intro g
    by_cases h : g.isAcknowledged <;> simp [fireTimeout, h]

/-- Witness for C1: a second `ack` on a gate already acknowledged with an
empty-body response rejects and leaves the settled promise untouched. -/
theorem ack_after_terminal_rejects_witness :
    ackFn { isAcknowledged := true, promise := some (Except.ok (mkAckResponse AckValue.undef)) }
        (AckValue.str "late")
      = (Except.error SlackError.receiverMultipleAckError,
         { isAcknowledged := true, promise := some (Except.ok (mkAckResponse AckValue.undef)) }) :=
  ack_after_terminal_rejects.1 _ _ rfl

/-- C3: when the deadline timer fires on a still-pending gate, the response
promise is rejected with the 408 timeout error, whose synthesized response
has status 408 and JSON body with `error` equal to `Request timeout` and
`type` naming the receiver error kind; the promise is then settled, so the
request is not left without a response; the default timeout is 3001 ms. -/
theorem timeout_produces_408 (g : Gate)
    (h : g.isAcknowledged = false) (hp : g.promise = none) :
    (fireTimeout g).promise = some (Except.error requestTimeoutError)
    ∧ awaitResponse (Except.error requestTimeoutError)
        = { status := 408
          , body := some (Json.stringify (Json.obj
              [("error", Json.str "Request timeout"),
               ("type", Json.str "VercelReceiverError")]))
          , contentType := some "application/json" }
    ∧ ((fireTimeout g).promise).isSome = true
    ∧ ACK_TIMEOUT_MS = 3001 := by
  refine ⟨?_, rfl, ?_, rfl⟩
  · simp [fireTimeout, h, hp, settle]
  · simp [fireTimeout, h, hp, settle]

/-- Witness for C3: the deadline firing on a freshly armed gate. -/
theorem timeout_produces_408_witness :
    (fireTimeout Gate.initial).promise = some (Except.error requestTimeoutError)
    ∧ awaitResponse (Except.error requestTimeoutError)
        = { status := 408
          , body := some (Json.stringify (Json.obj
              [("error", Json.str "Request timeout"),
               ("type", Json.str "VercelReceiverError")]))
          , contentType := some "application/json" }
    ∧ ((fireTimeout Gate.initial).promise).isSome = true
    ∧ ACK_TIMEOUT_MS = 3001 :=
  timeout_produces_408 Gate.initial rfl rfl

/-- C4: the first `ack` call on a pending gate succeeds, resolving the
promise with a status-200 response whose body is absent for `ack()`, the
string verbatim for a string value, and the `JSON.stringify` serialization
for a structured value. -/
theorem first_ack_response_shape (g : Gate)
    (h : g.isAcknowledged = false) (hp : g.promise = none) :
    (∀ v, ackFn g v
      = (Except.ok (), { isAcknowledged := true, promise := some (Except.ok (mkAckResponse v)) }))
    ∧ (∀ v, (mkAckResponse v).status = 200)
    ∧ (mkAckResponse AckValue.undef).body = none
    ∧ (∀ s, (mkAckResponse (AckValue.str s)).body = some s)
    ∧ (∀ j, (mkAckResponse (AckValue.obj j)).body = some (Json.stringify j)) := by
  refine ⟨?_, ?_, rfl, fun _ => rfl, fun _ => rfl⟩
  · intro v
    simp [ackFn, h, hp, settle]
  · intro v
    cases v <;> rfl

/-- Witness for C4: acknowledging a fresh gate with the string `ok`. -/
theorem first_ack_response_shape_witness :
    ackFn Gate.initial (AckValue.str "ok")
      = (Except.ok (), { isAcknowledged := true
                       , promise := some (Except.ok (mkAckResponse (AckValue.str "ok"))) })
    ∧ (mkAckResponse (AckValue.str "ok")).body = some "ok" :=
  ⟨(first_ack_response_shape Gate.initial rfl rfl).1 _,
   (first_ack_response_shape Gate.initial rfl rfl).2.2.2.1 "ok"⟩

/-- C8 counterexample: the response built for a string acknowledgment does
carry a forced `Content-Type: application/json` header — the same header
the structured case gets — even though its body is the raw string. -/
theorem string_ack_contentType_forced :
    (mkAckResponse (AckValue.str "ok")).contentType = some "application/json"
    ∧ (mkAckResponse (AckValue.str "ok")).body = some "ok"
    ∧ (mkAckResponse (AckValue.obj (Json.obj []))).contentType
        = (mkAckResponse (AckValue.str "ok")).contentType :=
  ⟨rfl, rfl, rfl⟩

/-- C8 amended: a string `ack` value yields a 200 response whose body is
the string verbatim (not JSON-quoted), but the receiver sets
`Content-Type: application/json` on every acknowledgment response, the
string case included. -/
theorem string_ack_raw_body (g : Gate)
    (h : g.isAcknowledged = false) (hp : g.promise = none) (s : String) :
    ackFn g (AckValue.str s)
      = (Except.ok (), { isAcknowledged := true
                       , promise := some (Except.ok
                           { status := 200, body := some s
                           , contentType := some "application/json" }) }) := by
  simp [ackFn, h, hp, settle, mkAckResponse]

/-- Witness for C8 amended: the string `ok` on a fresh gate. -/
theorem string_ack_raw_body_witness :
    ackFn Gate.initial (AckValue.str "ok")
      = (Except.ok (), { isAcknowledged := true
                       , promise := some (Except.ok
                           { status := 200, body := some "ok"
                           , contentType := some "application/json" }) }) :=
  string_ack_raw_body Gate.initial rfl rfl "ok"

/-- C2 counterexample: with `app.init()` rejecting on its first invocation
and succeeding on any later one, the handler from `createHandler` answers
the first request with the fixed 500 response, and the second request is
short-circuited by the cached rejected promise: `app.init()` is not
invoked again (still exactly one invocation) and the request fails with
the same 500 response instead of succeeding. -/
theorem createHandler_caches_rejected_init :
    (createHandlerStep (fun n => if n = 0 then Except.error "boom" else Except.ok ())
        { status := 200, body := none, contentType := none }
        MemoState.initial).2 = handlerErrorResponse
    ∧ (createHandlerStep (fun n => if n = 0 then Except.error "boom" else Except.ok ())
        { status := 200, body := none, contentType := none }
        (createHandlerStep (fun n => if n = 0 then Except.error "boom" else Except.ok ())
          { status := 200, body := none, contentType := none }
          MemoState.initial).1).1.initCalls = 1
    ∧ (createHandlerStep (fun n => if n = 0 then Except.error "boom" else Except.ok ())
        { status := 200, body := none, contentType := none }
        (createHandlerStep (fun n => if n = 0 then Except.error "boom" else Except.ok ())
          { status := 200, body := none, contentType := none }
          MemoState.initial).1).2 = handlerErrorResponse := by
  exact ⟨rfl, rfl, rfl⟩

/-- C2 amended: `createHandler` never discards the cached initialization
attempt: once `initPromise` is cached, a request leaves the closure state
unchanged (in particular `app.init()` is not invoked again); if the cached
attempt rejected, the request returns the fixed 500 handler-error
response, and only a fulfilled cache lets the receiver handler run. -/
theorem createHandler_init_cached_forever (f : Nat → Except String Unit)
    (inner : Response) (s : MemoState) (p : Except String Unit)
    (hp : s.initPromise = some p) :
    (createHandlerStep f inner s).1 = s
    ∧ (∀ m, p = Except.error m → (createHandlerStep f inner s).2 = handlerErrorResponse)
    ∧ (p = Except.ok () → (createHandlerStep f inner s).2 = inner) := by
  obtain ⟨q, calls⟩ := s
  obtain rfl : q = some p := hp
  refine ⟨?_, ?_, ?_⟩
  · cases p <;> simp [createHandlerStep]
  · intro m hm
    subst hm
    simp [createHandlerStep]
  · intro hm
    subst hm
    simp [createHandlerStep]

/-- Witness for C2 amended: a closure that cached a rejected attempt
answers with the fixed 500 response and keeps its state. -/
theorem createHandler_init_cached_forever_witness :
    (createHandlerStep (fun _ => Except.ok ())
        { status := 200, body := none, contentType := none }
        { initPromise := some (Except.error "boom"), initCalls := 1 }).1
      = { initPromise := some (Except.error "boom"), initCalls := 1 }
    ∧ (createHandlerStep (fun _ => Except.ok ())
        { status := 200, body := none, contentType := none }
        { initPromise := some (Except.error "boom"), initCalls := 1 }).2
      = handlerErrorResponse :=
  ⟨(createHandler_init_cached_forever _ _ _ _ rfl).1,
   (createHandler_init_cached_forever _ _ _ (Except.error "boom") rfl).2.1 "boom" rfl⟩

/-- C6: a parsed payload whose `type` is `url_verification` makes the
handler respond immediately with a 200 JSON response echoing the payload's
`challenge` value, and the routing never dispatches the event to the
engine's `processEvent`. -/
theorem url_verification_short_circuit (body challenge : Json)
    (htype : jlookup body "type" = some (Json.str "url_verification"))
    (hch : jlookup body "challenge" = some challenge) :
    routeBody body
      = HandlerAction.respond
          { status := 200
          , body := some (Json.stringify (Json.obj [("challenge", challenge)]))
          , contentType := some "application/json" }
    ∧ ∀ b, routeBody body ≠ HandlerAction.dispatch b := by
  have hroute : routeBody body
      = HandlerAction.respond (responseJson (challengeBody body)) := by
    simp [routeBody, isUrlVerification, htype]
  constructor
  · rw [hroute]
    simp [responseJson, challengeBody, hch]
  · intro b hcontra
    rw [hroute] at hcontra
    exact HandlerAction.noConfusion hcontra

/-- Witness for C6: a concrete URL-verification payload with challenge
string `abc`. -/
theorem url_verification_short_circuit_witness :
    routeBody (Json.obj [("type", Json.str "url_verification"), ("challenge", Json.str "abc")])
      = HandlerAction.respond
          { status := 200
          , body := some (Json.stringify (Json.obj [("challenge", Json.str "abc")]))
          , contentType := some "application/json" } :=
  (url_verification_short_circuit
    (Json.obj [("type", Json.str "url_verification"), ("challenge", Json.str "abc")])
    (Json.str "abc") rfl rfl).1

/-- C7: with signature verification enabled, a request missing the
signature header is answered with the authenticity error naming
`x-slack-signature`, and a request carrying a signature but missing the
timestamp header with the authenticity error naming
`x-slack-request-timestamp`; both map to HTTP 401 and the two messages
are distinct. -/
theorem missing_header_401 (bv : String → String → String → Option String)
    (jp : String → Except String Json) (headers : Headers) (rawBody : String) :
    (headerGet headers slackSignatureHeader = none →
      toHandlerStep bv jp true headers rawBody
        = HandlerAction.respond (handleError (SlackError.receiverAuthenticityError
            (missingRequiredHeader slackSignatureHeader))))
    ∧ (∀ sig, headerGet headers slackSignatureHeader = some sig → sig ≠ "" →
        headerGet headers slackTimestampHeader = none →
        toHandlerStep bv jp true headers rawBody
          = HandlerAction.respond (handleError (SlackError.receiverAuthenticityError
              (missingRequiredHeader slackTimestampHeader))))
    ∧ (handleError (SlackError.receiverAuthenticityError
        (missingRequiredHeader slackSignatureHeader))).status = 401
    ∧ (handleError (SlackError.receiverAuthenticityError
        (missingRequiredHeader slackTimestampHeader))).status = 401
    ∧ missingRequiredHeader slackSignatureHeader
        ≠ missingRequiredHeader slackTimestampHeader := by
  refine ⟨?_, ?_, rfl, rfl, by decide⟩
  · intro hsig
    simp [toHandlerStep, verifyRequest, hsig, isFalsyHeader]
  · intro sig hsig hne hts
    have hfalsy : isFalsyHeader (some sig) = false := by
      simp [isFalsyHeader, hne]
    simp [toHandlerStep, verifyRequest, hsig, hts, isFalsyHeader, hne]

/-- Witness for C7: a request with only a signature header (timestamp
branch) and a request with no headers at all (signature branch). -/
theorem missing_header_401_witness :
    toHandlerStep (fun _ _ _ => none) (fun _ => Except.error "eof") true
        [("x-slack-signature", "v0=abc")] ""
      = HandlerAction.respond (handleError (SlackError.receiverAuthenticityError
          (missingRequiredHeader slackTimestampHeader)))
    ∧ toHandlerStep (fun _ _ _ => none) (fun _ => Except.error "eof") true [] ""
      = HandlerAction.respond (handleError (SlackError.receiverAuthenticityError
          (missingRequiredHeader slackSignatureHeader))) :=
  ⟨(missing_header_401 _ _ _ _).2.1 "v0=abc" (by decide) (by decide) (by decide),
   (missing_header_401 _ _ _ _).1 (by decide)⟩

/-- C9 counterexample: the constructed event's `retryNum` is not an
integer ≥ 0 in every case: a `x-slack-retry-num` header of `-1` yields
`retryNum = -1` (negative), and a non-numeric header yields `NaN`. -/
theorem retry_num_negative_counterexample :
    (createSlackReceiverEvent [("x-slack-retry-num", "-1")] (Json.obj []) []).retryNum
      = JsNum.int (-1)
    ∧ ((-1 : Int) < 0)
    ∧ (createSlackReceiverEvent [("x-slack-retry-num", "abc")] (Json.obj []) []).retryNum
      = JsNum.nan := by
  refine ⟨by decide, by decide, by decide⟩

/-- C9 amended: the event's `retryNum` is `Number(header || "0")`: it
equals the header's decimal value (an integer ≥ 0) whenever the header is
a nonempty digit string, and 0 when the header is absent — but a signed or
non-numeric header produces a negative number or `NaN`; `retryReason`
equals the retry-reason header, defaulting to the empty string when
absent. -/
theorem retry_metadata_defaults (headers : Headers) (body : Json)
    (custom : List (String × Json)) :
    (headerGet headers slackRetryNumHeader = none →
      (createSlackReceiverEvent headers body custom).retryNum = JsNum.int 0)
    ∧ (∀ s, headerGet headers slackRetryNumHeader = some s → s ≠ "" →
        s.data.all Char.isDigit = true →
        (createSlackReceiverEvent headers body custom).retryNum
          = JsNum.int (natOfDigits s.data)
        ∧ 0 ≤ ((natOfDigits s.data : Nat) : Int))
    ∧ (headerGet headers slackRetryReasonHeader = none →
      (createSlackReceiverEvent headers body custom).retryReason = "")
    ∧ (∀ s, headerGet headers slackRetryReasonHeader = some s → s ≠ "" →
        (createSlackReceiverEvent headers body custom).retryReason = s) := by
  refine ⟨?_, ?_, ?_, ?_⟩
  · intro h
    simp only [createSlackReceiverEvent, h, jsOrDefault]
    decide
  · intro s hs hne hd
    refine ⟨?_, Int.natCast_nonneg _⟩
    simp only [createSlackReceiverEvent, hs, jsOrDefault, if_neg hne]
    exact jsToNumber_digits s hne hd
  · intro h
    simp [createSlackReceiverEvent, h, jsOrDefault]
  · intro s hs hne
    simp [createSlackReceiverEvent, hs, jsOrDefault, if_neg hne]

/-- Witness for C9 amended: retry headers `3` / `http_timeout` give
`retryNum = 3` and `retryReason = "http_timeout"`; with no headers the
defaults are 0 and the empty string. -/
theorem retry_metadata_defaults_witness :
    (createSlackReceiverEvent
        [("x-slack-retry-num", "3"), ("x-slack-retry-reason", "http_timeout")]
        (Json.obj []) []).retryNum = JsNum.int 3
    ∧ (createSlackReceiverEvent
        [("x-slack-retry-num", "3"), ("x-slack-retry-reason", "http_timeout")]
        (Json.obj []) []).retryReason = "http_timeout"
    ∧ (createSlackReceiverEvent [] (Json.obj []) []).retryNum = JsNum.int 0
    ∧ (createSlackReceiverEvent [] (Json.obj []) []).retryReason = "" := by
  refine ⟨?_, ?_, ?_, ?_⟩
  · exact (((retry_metadata_defaults
      [("x-slack-retry-num", "3"), ("x-slack-retry-reason", "http_timeout")]
      (Json.obj []) []).2.1 "3" (by decide) (by decide) (by decide)).1).trans (by decide)
  · exact (retry_metadata_defaults
      [("x-slack-retry-num", "3"), ("x-slack-retry-reason", "http_timeout")]
      (Json.obj []) []).2.2.2 "http_timeout" (by decide) (by decide)
  · exact (retry_metadata_defaults [] (Json.obj []) []).1 (by decide)
  · exact (retry_metadata_defaults [] (Json.obj []) []).2.2.1 (by decide)

/-- C5: the body normalizer produces one canonical shape per request: for
the form content-type it URL-decodes the body and, when a `payload` key
exists, returns the JSON parsed from that key's value (sibling keys
discarded — the result depends only on the `payload` value), else the
flat decoded map; for any other or absent content-type it JSON-parses the
raw body; every parse failure — the empty body under hypothesis that
`JSON.parse` rejects it — becomes a `RequestParsingError` with status 400
whose message names the offending content-type. -/
theorem parse_request_body_shapes (jp : String → Except String Json) (rawBody : String) :
    (∀ payload j, alistGet? (urlDecode rawBody) "payload" = some payload →
      jp payload = Except.ok j →
      parseRequestBody jp (some "application/x-www-form-urlencoded") rawBody = Except.ok j)
    ∧ (∀ payload m, alistGet? (urlDecode rawBody) "payload" = some payload →
        jp payload = Except.error m →
        parseRequestBody jp (some "application/x-www-form-urlencoded") rawBody
          = Except.error (parsingError (some "application/x-www-form-urlencoded") m))
    ∧ (alistGet? (urlDecode rawBody) "payload" = none →
        parseRequestBody jp (some "application/x-www-form-urlencoded") rawBody
          = Except.ok (Json.obj ((urlDecode rawBody).map (fun kv => (kv.1, Json.str kv.2)))))
    ∧ (∀ ct, ct ≠ some "application/x-www-form-urlencoded" →
        parseRequestBody jp ct rawBody
          = match jp rawBody with
            | .ok j => Except.ok j
            | .error m => Except.error (parsingError ct m))
    ∧ (∀ ct m, getStatusCode (parsingError ct m) = 400
        ∧ ∃ pre post, getErrorMessage (parsingError ct m)
            = pre ++ contentTypeText ct ++ post)
    ∧ (∀ ct m, ct ≠ some "application/x-www-form-urlencoded" →
        jp "" = Except.error m →
        parseRequestBody jp ct "" = Except.error (parsingError ct m)) := by
  refine ⟨?_, ?_, ?_, ?_, ?_, ?_⟩
  · intro payload j hp hj
    simp [parseRequestBody, hp, hj]
  · intro payload m hp hj
    simp [parseRequestBody, hp, hj]
  · intro hp
    simp [parseRequestBody, hp]
  · intro ct hct
    cases hjp : jp rawBody <;> simp [parseRequestBody, hct, hjp]
  · intro ct m
    refine ⟨rfl, "Failed to parse body as JSON data for content-type: ",
      ". Error: " ++ m, ?_⟩
    simp [parsingError, getErrorMessage, String.append_assoc]
  · intro ct m hct hjp
    simp [parseRequestBody, hct, hjp]

/-- Witness for C5: a form body whose `payload` field parses to a number
with a discarded sibling key; a form body without `payload`; a JSON body;
and an empty JSON body rejected with status 400. -/
theorem parse_request_body_shapes_witness :
    parseRequestBody
        (fun s => if s = "1" then Except.ok (Json.num 1) else Except.error "Unexpected end of JSON input")
        (some "application/x-www-form-urlencoded") "payload=1&foo=bar"
      = Except.ok (Json.num 1)
    ∧ parseRequestBody
        (fun s => if s = "1" then Except.ok (Json.num 1) else Except.error "Unexpected end of JSON input")
        (some "application/x-www-form-urlencoded") "token=x&team_id=T123"
      = Except.ok (Json.obj [("token", Json.str "x"), ("team_id", Json.str "T123")])
    ∧ parseRequestBody
        (fun s => if s = "1" then Except.ok (Json.num 1) else Except.error "Unexpected end of JSON input")
        (some "application/json") ""
      = Except.error (parsingError (some "application/json") "Unexpected end of JSON input")
    ∧ getStatusCode (parsingError (some "application/json") "Unexpected end of JSON input") = 400 := by
  refine ⟨?_, ?_, ?_, ?_⟩
  · exact (parse_request_body_shapes _ "payload=1&foo=bar").1 "1" (Json.num 1)
      rfl rfl
  · exact ((parse_request_body_shapes _ "token=x&team_id=T123").2.2.1
      rfl).trans rfl
  · exact (parse_request_body_shapes _ "").2.2.2.2.2 (some "application/json")
      "Unexpected end of JSON input" (by decide) rfl
  · exact ((parse_request_body_shapes (fun _ => Except.error "") "").2.2.2.2.1
      (some "application/json") "Unexpected end of JSON input").1

/-- C10: the form-encoded branch requires the content-type to be exactly
`application/x-www-form-urlencoded`: the parameterized variant
`application/x-www-form-urlencoded; charset=utf-8` is not URL-decoded but
falls through to the JSON fallback, succeeding only when the raw body is
itself valid JSON and failing with a `RequestParsingError` (status 400)
otherwise. -/
theorem parameterized_form_content_type_falls_through
    (jp : String → Except String Json) (rawBody : String) :
    parseRequestBody jp (some "application/x-www-form-urlencoded; charset=utf-8") rawBody
      = (match jp rawBody with
         | .ok j => Except.ok j
         | .error m =>
           Except.error (parsingError
             (some "application/x-www-form-urlencoded; charset=utf-8") m))
    ∧ (∀ m, getStatusCode (parsingError
        (some "application/x-www-form-urlencoded; charset=utf-8") m) = 400) := by
  constructor
  · cases hjp : jp rawBody <;>
      simp [parseRequestBody, hjp]
  · intro m
    rfl

end SlackBolt
